import Mathlib

/-!
Verification of the patient-vitals data pipeline: a shallow embedding of
`src/anomaly_detection/detector.py` (`SimpleAnomalyDetector.check_vital_thresholds`),
`config/settings.py` (`VITAL_RANGES`, `ALERT_LEVELS`) and
`src/alerting/alert_manager.py` (`PatientAlertManager.process_anomalies`,
`get_patient_alerts`), together with theorems settling the specification
claims about them.

Numeric vital values are modelled as rationals (Python floats in the source;
all values of interest are exactly representable).  The blood-pressure field
may hold an arbitrary Python value; anything that is not a string makes the
source's `patient_data["blood_pressure"].split("/")` raise `AttributeError`,
which the surrounding `except (ValueError, IndexError)` does not catch, so the
embedding of `check_vital_thresholds` returns in an `Except` monad.
-/

/-- One entry of `VITAL_RANGES` in `config/settings.py`. -/
structure VitalRange where
  min : ℚ
  max : ℚ
  critical_min : ℚ
  critical_max : ℚ
deriving DecidableEq

/-- `VITAL_RANGES["heart_rate"]`. -/
def heart_rate_range : VitalRange := ⟨60, 100, 40, 130⟩

/-- `VITAL_RANGES["temperature"]`: `{min: 36.0, max: 37.5, critical_min: 35.0,
critical_max: 38.5}`.  The two half-integral bounds are written as explicit
reduced fractions (37.5 = 75/2, 38.5 = 77/2) so that they evaluate by kernel
reduction; `temperature_range_values` below checks them against the decimal
literals. -/
def temperature_range : VitalRange :=
  ⟨36, ⟨75, 2, by decide, by decide⟩, 35, ⟨77, 2, by decide, by decide⟩⟩

theorem temperature_range_values :
    temperature_range.max = 37.5 ∧ temperature_range.critical_max = 38.5 := by
  constructor <;>
    (show (Rat.mk' _ _ _ _ : ℚ) = _
     rw [Rat.mk'_eq_divInt, Rat.divInt_eq_div]
     norm_num)

/-- `VITAL_RANGES["oxygen_saturation"]`. -/
def oxygen_saturation_range : VitalRange := ⟨95, 100, 90, 100⟩

/-- `VITAL_RANGES["respiratory_rate"]`. -/
def respiratory_rate_range : VitalRange := ⟨12, 20, 10, 25⟩

/-- `VITAL_RANGES["blood_pressure_systolic"]`. -/
def blood_pressure_systolic_range : VitalRange := ⟨90, 120, 80, 180⟩

/-- `VITAL_RANGES["blood_pressure_diastolic"]`. -/
def blood_pressure_diastolic_range : VitalRange := ⟨60, 80, 50, 110⟩

/-- One anomaly dict appended by `check_vital_thresholds`:
`{"vital": ..., "value": ..., "reason": ..., "threshold": ..., "severity": ...}`. -/
structure Finding where
  vital : String
  value : ℚ
  reason : String
  threshold : ℚ
  severity : String
deriving DecidableEq

/-- The Python value stored under the `"blood_pressure"` key: either a string,
or some non-string value (`None`, a number, ...) on which `.split` raises
`AttributeError`. -/
inductive BPRaw where
  | str (s : String)
  | nonStr
deriving DecidableEq

/-- A patient reading (`patient_data` mapping): each tracked scalar vital is
absent (`none`) or a number; `blood_pressure`, when the key is present, holds
an arbitrary Python value. -/
structure Reading where
  heart_rate : Option ℚ := none
  temperature : Option ℚ := none
  oxygen_saturation : Option ℚ := none
  respiratory_rate : Option ℚ := none
  blood_pressure : Option BPRaw := none
deriving DecidableEq

/-- The uncaught Python exception the detector can raise. -/
inductive PyErr where
  | attributeError
deriving DecidableEq

instance : DecidableEq (Except PyErr (List Finding)) := fun a b =>
  match a, b with
  | .ok x, .ok y => if h : x = y then .isTrue (by rw [h]) else .isFalse (by simp [h])
  | .error x, .error y => if h : x = y then .isTrue (by rw [h]) else .isFalse (fun hc => h (by injection hc))
  | .ok _, .error _ => .isFalse (by simp)
  | .error _, .ok _ => .isFalse (by simp)

/-- Python's `str.split(sep)` for a one-character separator, over the
string's character list: splits at every occurrence of the separator, keeping
empty pieces, and `"".split(sep) == [""]`. -/
def pySplitOn (sep : Char) : List Char → List (List Char)
  | [] => [[]]
  | c :: cs =>
    match pySplitOn sep cs with
    | r :: rs => if c = sep then [] :: r :: rs else (c :: r) :: rs
    | [] => if c = sep then [[], []] else [[c]]

/-- Python's `str.strip()` behaviour on the character list: drop whitespace
from both ends. -/
def pyStrip (cs : List Char) : List Char :=
  ((cs.dropWhile Char.isWhitespace).reverse.dropWhile Char.isWhitespace).reverse

/-- Python's `int(s)` on a string, over its character list: strip surrounding
whitespace, optional sign, then a non-empty digit string; anything else raises
`ValueError` (`none` here).  (Underscore digit-grouping, accepted by CPython,
is not modelled; no input in this repository uses it.) -/
def parsePyInt (cs : List Char) : Option Int :=
  let t := pyStrip cs
  let (sign, digits) :=
    match t with
    | '-' :: rest => ((-1 : Int), rest)
    | '+' :: rest => ((1 : Int), rest)
    | _ => ((1 : Int), t)
  if digits ≠ [] ∧ digits.all Char.isDigit then
    some (sign * Int.ofNat (digits.foldl (fun n c => 10 * n + (c.toNat - 48)) 0))
  else none

/-- The blood-pressure parse in `check_vital_thresholds`:
`bp_parts = s.split("/"); systolic = int(bp_parts[0]); diastolic = int(bp_parts[1])`.
A missing separator (`IndexError` on `bp_parts[1]`) or a non-numeric part
(`ValueError` from `int`) is caught by the `except (ValueError, IndexError)`
clause, giving `none`; extra `/`-separated parts beyond the second are ignored
just as the source ignores them. -/
def parseBP (s : String) : Option (Int × Int) :=
  match pySplitOn '/' s.data with
  | p0 :: p1 :: _ =>
    match parsePyInt p0, parsePyInt p1 with
    | some a, some b => some (a, b)
    | _, _ => none
  | _ => none

/-- The four-comparison banding block repeated verbatim in the source for
heart rate, temperature, respiratory rate, and for each parsed blood-pressure
component: `if v < min / elif v > max` then, independently,
`if v < critical_min / elif v > critical_max`. -/
def checkScalar (vital : String) (r : VitalRange) (v : ℚ) : List Finding :=
  (if v < r.min then [⟨vital, v, "below normal", r.min, "medium"⟩]
   else if v > r.max then [⟨vital, v, "above normal", r.max, "medium"⟩]
   else []) ++
  (if v < r.critical_min then [⟨vital, v, "critically low", r.critical_min, "high"⟩]
   else if v > r.critical_max then [⟨vital, v, "critically high", r.critical_max, "high"⟩]
   else [])

/-- The oxygen-saturation block of the source, which checks only the low side:
`if oxygen < min` then `if oxygen < critical_min` (no above-band checks). -/
def checkOxygen (v : ℚ) : List Finding :=
  (if v < oxygen_saturation_range.min then
    [⟨"oxygen_saturation", v, "below normal", oxygen_saturation_range.min, "medium"⟩]
   else []) ++
  (if v < oxygen_saturation_range.critical_min then
    [⟨"oxygen_saturation", v, "critically low", oxygen_saturation_range.critical_min, "high"⟩]
   else [])

/-- `value = patient_data.get(key)` followed by the truthiness test
`if value:`: the banded block runs only when the key is present AND the value
is non-zero (Python's falsiness of `0`/`0.0`). -/
def checkScalarVital (vital : String) (r : VitalRange) (v? : Option ℚ) : List Finding :=
  match v? with
  | none => []
  | some v => if v ≠ 0 then checkScalar vital r v else []

/-- The oxygen block behind the same `if oxygen:` truthiness gate. -/
def checkOxygenVital (v? : Option ℚ) : List Finding :=
  match v? with
  | none => []
  | some v => if v ≠ 0 then checkOxygen v else []

/-- `pulse_pressure = systolic - diastolic; if pulse_pressure > 50: append`. -/
def checkPulsePressure (systolic diastolic : Int) : List Finding :=
  let pulse_pressure := systolic - diastolic
  if pulse_pressure > 50 then
    [⟨"pulse_pressure", (pulse_pressure : ℚ),
      "abnormal systolic-diastolic difference", 50, "medium"⟩]
  else []

/-- The trailing blood-pressure `try` block of `check_vital_thresholds`,
applied to the findings accumulated by the scalar blocks.  A present
non-string blood-pressure value raises `AttributeError` at
`patient_data["blood_pressure"].split("/")`, which the
`except (ValueError, IndexError)` clause does not catch; a string that fails
to parse falls into that clause (`pass`), leaving the scalar findings; a
parsed pair appends the systolic, diastolic and pulse-pressure findings. -/
def checkBPBlock (scalars : List Finding) :
    Option BPRaw → Except PyErr (List Finding)
  | none => .ok scalars
  | some .nonStr => .error .attributeError
  | some (.str s) =>
    match parseBP s with
    | none => .ok scalars
    | some (systolic, diastolic) =>
      .ok (scalars ++
        checkScalar "blood_pressure_systolic" blood_pressure_systolic_range (systolic : ℚ) ++
        checkScalar "blood_pressure_diastolic" blood_pressure_diastolic_range (diastolic : ℚ) ++
        checkPulsePressure systolic diastolic)

/-- `SimpleAnomalyDetector.check_vital_thresholds`: the four gated scalar
blocks in source order (heart rate, temperature, oxygen saturation,
respiratory rate), then the blood-pressure `try` block. -/
def check_vital_thresholds (patient_data : Reading) : Except PyErr (List Finding) :=
  checkBPBlock
    (checkScalarVital "heart_rate" heart_rate_range patient_data.heart_rate ++
     checkScalarVital "temperature" temperature_range patient_data.temperature ++
     checkOxygenVital patient_data.oxygen_saturation ++
     checkScalarVital "respiratory_rate" respiratory_rate_range patient_data.respiratory_rate)
    patient_data.blood_pressure

/-- One alert dict stored by `process_anomalies`:
`{"timestamp": ..., "level": ..., "anomalies": ..., "vitals": ...}`
(the subject id is the key of the `alert_history` dict). -/
structure Alert where
  timestamp : String
  level : String
  anomalies : List Finding
  vitals : Reading
deriving DecidableEq

/-- `PatientAlertManager.alert_history`: an insertion-ordered dict from
patient id to that patient's list of alerts, modelled as an association list
(one entry per key, in insertion order, as CPython dicts iterate). -/
abbrev AlertHistory : Type := List (String × List Alert)

/-- `ALERT_LEVELS.get(key, 1)` against the `ALERT_LEVELS` dict of
`config/settings.py` (`LOW:1, MEDIUM:2, HIGH:3, CRITICAL:4`). -/
def ALERT_LEVELS_get (key : String) : Nat :=
  if key = "LOW" then 1
  else if key = "MEDIUM" then 2
  else if key = "HIGH" then 3
  else if key = "CRITICAL" then 4
  else 1

/-- Python's `str.upper()` (ASCII, which covers every severity string the
detector produces). -/
def pyUpper (s : String) : String := ⟨s.data.map Char.toUpper⟩

/-- The loop body of the alert-level computation in `process_anomalies`:
`severity = anomaly.get("severity", "low").upper()` (our `Finding` always
carries a severity, so the `"low"` default is never taken), then
`if ALERT_LEVELS.get(severity, 1) > ALERT_LEVELS.get(alert_level, 1):
alert_level = severity`. -/
def levelStep (alert_level : String) (anomaly : Finding) : String :=
  let severity := pyUpper anomaly.severity
  if ALERT_LEVELS_get severity > ALERT_LEVELS_get alert_level then severity
  else alert_level

/-- The `alert_level` loop of `process_anomalies`, starting from `"LOW"`. -/
def computeAlertLevel (anomalies : List Finding) : String :=
  anomalies.foldl levelStep "LOW"

/-- Dict lookup `alert_history[patient_id]` (first — and only — matching
entry), `none` when `patient_id not in alert_history`. -/
def lookupHistory (history : AlertHistory) (patient_id : String) : Option (List Alert) :=
  (history.find? (fun e => e.1 == patient_id)).map (·.2)

/-- `alert_history[patient_id]` with the dict's absent-key behaviour of
`get_patient_alerts` folded to the empty list, for stating properties. -/
def lookupAlerts (history : AlertHistory) (patient_id : String) : List Alert :=
  (lookupHistory history patient_id).getD []

/-- The history mutation at the end of `process_anomalies`:
`if patient_id not in alert_history: alert_history[patient_id] = []` then
`alert_history[patient_id].append(alert)`. -/
def historyAppend (history : AlertHistory) (patient_id : String) (a : Alert) :
    AlertHistory :=
  (if history.any (fun e => e.1 == patient_id) then history
   else history ++ [(patient_id, [])]).map
    (fun e => if e.1 == patient_id then (e.1, e.2 ++ [a]) else e)

/-- `PatientAlertManager.process_anomalies`, as its effect on
`alert_history`: `if not anomalies: return`, else compute the alert level,
build the alert dict and append it under `patient_id`.  (The logging calls
are I/O on the sink and do not touch the history.) -/
def process_anomalies (history : AlertHistory) (patient_id timestamp : String)
    (vitals : Reading) (anomalies : List Finding) : AlertHistory :=
  if anomalies = [] then history
  else
    let alert_level := computeAlertLevel anomalies
    historyAppend history patient_id ⟨timestamp, alert_level, anomalies, vitals⟩

/-- The Python slice `lst[-limit:]` for an integer `limit` (as used by
`get_patient_alerts`): for `limit > 0` the last `limit` elements; `-0 == 0`
so `limit == 0` gives the whole list; a negative `limit` gives
`lst[(-limit):]`. -/
def pySliceLast {α : Type} (l : List α) (limit : Int) : List α :=
  if limit > 0 then l.drop (l.length - limit.toNat)
  else l.drop (-limit).toNat

/-- `PatientAlertManager.get_patient_alerts`:
`if patient_id not in alert_history: return []` then
`return alert_history[patient_id][-limit:]`. -/
def get_patient_alerts (history : AlertHistory) (patient_id : String)
    (limit : Int) : List Alert :=
  match lookupHistory history patient_id with
  | none => []
  | some alerts => pySliceLast alerts limit

/-- One call to `process_anomalies` (its four arguments). -/
structure RecordCall where
  patient_id : String
  timestamp : String
  vitals : Reading
  anomalies : List Finding

/-- The alert dict that a call with non-empty `anomalies` appends. -/
def alertOf (c : RecordCall) : Alert :=
  ⟨c.timestamp, computeAlertLevel c.anomalies, c.anomalies, c.vitals⟩

/-- Replaying a sequence of `process_anomalies` calls against an initially
empty history. -/
def runCalls (calls : List RecordCall) : AlertHistory :=
  calls.foldl
    (fun h c => process_anomalies h c.patient_id c.timestamp c.vitals c.anomalies)
    []

/-! ## Helper lemmas -/

theorem checkScalar_vital_name (vital : String) (r : VitalRange) (v : ℚ) :
    ∀ f ∈ checkScalar vital r v, f.vital = vital := by
  intro f hf
  unfold checkScalar at hf
  rcases List.mem_append.1 hf with h | h <;>
    (split at h
     · simp at h; subst h; rfl
     · split at h
       · simp at h; subst h; rfl
       · simp at h)

theorem checkOxygen_vital_name (v : ℚ) :
    ∀ f ∈ checkOxygen v, f.vital = "oxygen_saturation" := by
  intro f hf
  unfold checkOxygen at hf
  rcases List.mem_append.1 hf with h | h <;>
    (split at h
     · simp at h; subst h; rfl
     · simp at h)

theorem checkScalarVital_vital_name (vital : String) (r : VitalRange) (v? : Option ℚ) :
    ∀ f ∈ checkScalarVital vital r v?, f.vital = vital := by
  intro f hf
  rcases v? with _ | v
  · simp [checkScalarVital] at hf
  · by_cases hv : v = 0
    · simp [checkScalarVital, hv] at hf
    · simp only [checkScalarVital, hv, ne_eq, not_false_eq_true, if_true] at hf
      exact checkScalar_vital_name vital r v f hf

theorem checkOxygenVital_vital_name (v? : Option ℚ) :
    ∀ f ∈ checkOxygenVital v?, f.vital = "oxygen_saturation" := by
  intro f hf
  rcases v? with _ | v
  · simp [checkOxygenVital] at hf
  · by_cases hv : v = 0
    · simp [checkOxygenVital, hv] at hf
    · simp only [checkOxygenVital, hv, ne_eq, not_false_eq_true, if_true] at hf
      exact checkOxygen_vital_name v f hf

theorem checkScalar_above (vital : String) (r : VitalRange) (v : ℚ)
    (h1 : r.min ≤ r.max) (h2 : r.critical_min ≤ r.max) (hv : v > r.max) :
    checkScalar vital r v =
      ⟨vital, v, "above normal", r.max, "medium"⟩ ::
        (if v > r.critical_max then
          [⟨vital, v, "critically high", r.critical_max, "high"⟩]
         else []) := by
  unfold checkScalar
  rw [if_neg (by linarith : ¬ v < r.min), if_pos hv,
    if_neg (by linarith : ¬ v < r.critical_min)]
  rfl

theorem checkScalar_below (vital : String) (r : VitalRange) (v : ℚ)
    (hmc : r.min ≤ r.critical_max) (hv : v < r.min) :
    checkScalar vital r v =
      ⟨vital, v, "below normal", r.min, "medium"⟩ ::
        (if v < r.critical_min then
          [⟨vital, v, "critically low", r.critical_min, "high"⟩]
         else []) := by
  unfold checkScalar
  rw [if_pos hv]
  by_cases hc : v < r.critical_min
  · rw [if_pos hc, if_pos hc]; rfl
  · rw [if_neg hc, if_neg hc, if_neg (by linarith : ¬ v > r.critical_max)]; rfl

theorem checkScalar_boundary (vital : String) (r : VitalRange) (v : ℚ)
    (h1 : r.critical_min < r.min) (h2 : r.min ≤ r.max) (h3 : r.max < r.critical_max)
    (hv : v = r.min ∨ v = r.max) :
    checkScalar vital r v = [] := by
  unfold checkScalar
  rcases hv with rfl | rfl <;>
    (rw [if_neg (by linarith), if_neg (by linarith), if_neg (by linarith),
      if_neg (by linarith)]
     rfl)

theorem lookupHistory_map_append (h : AlertHistory) (pid q : String) (a : Alert) :
    lookupHistory (h.map (fun e => if e.1 == pid then (e.1, e.2 ++ [a]) else e)) q =
      if q = pid then (lookupHistory h q).map (fun l => l ++ [a])
      else lookupHistory h q := by
  unfold lookupHistory
  rw [List.find?_map]
  have hcomp : ((fun e : String × List Alert => e.1 == q) ∘
      fun e => if e.1 == pid then (e.1, e.2 ++ [a]) else e) =
      fun e : String × List Alert => e.1 == q := by
    funext e
    by_cases hp : e.1 == pid <;> simp [Function.comp, hp]
  rw [hcomp]
  rcases hf : List.find? (fun e : String × List Alert => e.1 == q) h with _ | e
  · by_cases hqp : q = pid <;> simp [hqp]
  · have hq : e.1 = q := by simpa using List.find?_some hf
    by_cases hqp : q = pid
    · subst hqp
      simp [hq]
    · have : (e.1 == pid) = false := by
        rw [hq]; exact beq_eq_false_iff_ne.mpr hqp
      simp [hqp, this, hq]

theorem lookupHistory_append_new (h : AlertHistory) (pid q : String)
    (hin : ¬ h.any (fun e => e.1 == pid) = true) :
    lookupHistory (h ++ [(pid, ([] : List Alert))]) q =
      if q = pid then some [] else lookupHistory h q := by
  unfold lookupHistory
  rw [List.find?_append]
  by_cases hqp : q = pid
  · subst hqp
    have hnone : List.find? (fun e : String × List Alert => e.1 == q) h = none := by
      rw [List.find?_eq_none]
      intro x hx hpx
      exact hin (List.any_eq_true.mpr ⟨x, hx, hpx⟩)
    simp [hnone]
  · have : ((pid, ([] : List Alert)).1 == q) = false :=
      beq_eq_false_iff_ne.mpr (fun hc => hqp hc.symm)
    rcases hf : List.find? (fun e : String × List Alert => e.1 == q) h with _ | e <;>
      simp [hf, hqp, this, List.find?]

theorem lookupHistory_historyAppend (h : AlertHistory) (pid q : String) (a : Alert) :
    lookupHistory (historyAppend h pid a) q =
      if q = pid then some (lookupAlerts h pid ++ [a]) else lookupHistory h q := by
  unfold historyAppend
  by_cases hin : h.any (fun e => e.1 == pid) = true
  · rw [if_pos hin, lookupHistory_map_append]
    by_cases hqp : q = pid
    · subst hqp
      obtain ⟨e, he, hpe⟩ := List.any_eq_true.mp hin
      have hq : e.1 = q := by simpa using hpe
      have hsome : (List.find? (fun e : String × List Alert => e.1 == q) h).isSome := by
        rw [List.find?_isSome]
        exact ⟨e, he, hpe⟩
      obtain ⟨e', he'⟩ := Option.isSome_iff_exists.mp hsome
      simp [lookupAlerts, lookupHistory, he']
    · simp [hqp]
  · rw [if_neg hin, lookupHistory_map_append, lookupHistory_append_new h pid _ hin]
    by_cases hqp : q = pid
    · subst hqp
      have hnone : List.find? (fun e : String × List Alert => e.1 == q) h = none := by
        rw [List.find?_eq_none]
        intro x hx hpx
        exact hin (List.any_eq_true.mpr ⟨x, hx, hpx⟩)
      simp [lookupAlerts, lookupHistory, hnone]
    · simp [hqp]

theorem lookupAlerts_historyAppend_same (h : AlertHistory) (pid : String) (a : Alert) :
    lookupAlerts (historyAppend h pid a) pid = lookupAlerts h pid ++ [a] := by
  unfold lookupAlerts
  rw [lookupHistory_historyAppend, if_pos rfl]
  rfl

theorem lookupHistory_historyAppend_ne (h : AlertHistory) (pid q : String) (a : Alert)
    (hq : q ≠ pid) :
    lookupHistory (historyAppend h pid a) q = lookupHistory h q := by
  rw [lookupHistory_historyAppend, if_neg hq]

theorem pyUpper_medium : pyUpper "medium" = "MEDIUM" := by decide

theorem pyUpper_high : pyUpper "high" = "HIGH" := by decide

theorem foldl_levelStep_high (l : List Finding)
    (hl : ∀ f ∈ l, f.severity = "medium" ∨ f.severity = "high") :
    l.foldl levelStep "HIGH" = "HIGH" := by
  induction l with
  | nil => rfl
  | cons f t ih =>
    rw [List.foldl_cons]
    have hstep : levelStep "HIGH" f = "HIGH" := by
      rcases hl f (by simp) with hf | hf <;>
        (simp only [levelStep]; rw [hf]; decide)
    rw [hstep]
    exact ih (fun g hg => hl g (by simp [hg]))

theorem foldl_levelStep_low_medium (l : List Finding)
    (hl : ∀ f ∈ l, f.severity = "medium" ∨ f.severity = "high") :
    ∀ acc, acc = "LOW" ∨ acc = "MEDIUM" →
      l.foldl levelStep acc =
        if ∃ f ∈ l, f.severity = "high" then "HIGH"
        else if l = [] then acc else "MEDIUM" := by
  induction l with
  | nil => intro acc hacc; simp
  | cons f t ih =>
    intro acc hacc
    rw [List.foldl_cons]
    rcases hl f (by simp) with hf | hf
    · have hstep : levelStep acc f = "MEDIUM" := by
        rcases hacc with rfl | rfl <;> (simp only [levelStep]; rw [hf]; decide)
      rw [hstep, ih (fun g hg => hl g (by simp [hg])) "MEDIUM" (Or.inr rfl)]
      have hiff : (∃ g ∈ f :: t, g.severity = "high") ↔
          (∃ g ∈ t, g.severity = "high") := by
        constructor
        · rintro ⟨g, hg, hgs⟩
          rcases List.mem_cons.mp hg with rfl | hg'
          · rw [hf] at hgs; exact absurd hgs (by decide)
          · exact ⟨g, hg', hgs⟩
        · rintro ⟨g, hg, hgs⟩
          exact ⟨g, by simp [hg], hgs⟩
      by_cases hex : ∃ g ∈ t, g.severity = "high"
      · rw [if_pos hex, if_pos (hiff.mpr hex)]
      · rw [if_neg hex, if_neg (fun hc => hex (hiff.mp hc)), ite_self,
          if_neg (by simp : ¬ (f :: t) = [])]
    · have hstep : levelStep acc f = "HIGH" := by
        rcases hacc with rfl | rfl <;> (simp only [levelStep]; rw [hf]; decide)
      rw [hstep, foldl_levelStep_high t (fun g hg => hl g (by simp [hg])),
        if_pos ⟨f, by simp, hf⟩]

theorem computeAlertLevel_eq_max (an : List Finding) (hne : an ≠ [])
    (hs : ∀ f ∈ an, f.severity = "medium" ∨ f.severity = "high") :
    computeAlertLevel an =
      if ∃ f ∈ an, f.severity = "high" then "HIGH" else "MEDIUM" := by
  unfold computeAlertLevel
  rw [foldl_levelStep_low_medium an hs "LOW" (Or.inl rfl), if_neg hne]

theorem runCalls_lookup_aux (calls : List RecordCall) (h : AlertHistory) (pid : String) :
    lookupAlerts
        (calls.foldl
          (fun h c => process_anomalies h c.patient_id c.timestamp c.vitals c.anomalies)
          h) pid =
      lookupAlerts h pid ++
        (calls.filter
          (fun c => c.patient_id == pid && !c.anomalies.isEmpty)).map alertOf := by
  induction calls generalizing h with
  | nil => simp
  | cons c cs ih =>
    rw [List.foldl_cons, ih, List.filter_cons]
    by_cases hce : c.anomalies = []
    · simp [process_anomalies, hce]
    · have hproc : process_anomalies h c.patient_id c.timestamp c.vitals c.anomalies
          = historyAppend h c.patient_id (alertOf c) := by
        rw [process_anomalies, if_neg hce]
        rfl
      rw [hproc]
      by_cases hcp : c.patient_id = pid
      · have hpred : (c.patient_id == pid && !c.anomalies.isEmpty) = true := by
          simp [hcp, hce]
        rw [if_pos hpred, List.map_cons, hcp, lookupAlerts_historyAppend_same,
          List.append_assoc, List.singleton_append]
      · have hpred : (c.patient_id == pid && !c.anomalies.isEmpty) = false := by
          simp [hcp]
        rw [if_neg (by simp [hpred])]
        unfold lookupAlerts
        rw [lookupHistory_historyAppend_ne h c.patient_id pid (alertOf c)
          (fun hc => hcp hc.symm)]

theorem checkScalarVital_above (vital : String) (r : VitalRange) (v : ℚ)
    (h0 : 0 ≤ r.max) (h1 : r.min ≤ r.max) (h2 : r.critical_min ≤ r.max)
    (hv : v > r.max) :
    checkScalarVital vital r (some v) =
      ⟨vital, v, "above normal", r.max, "medium"⟩ ::
        (if v > r.critical_max then
          [⟨vital, v, "critically high", r.critical_max, "high"⟩]
         else []) := by
  show (if v ≠ 0 then checkScalar vital r v else []) = _
  rw [if_pos (by intro he; rw [he] at hv; linarith : v ≠ 0)]
  exact checkScalar_above vital r v h1 h2 hv

/-! ## Claims -/

/-- C1: the spec (§3, §9) requires a present-but-zero vital value to be
evaluated against the bands like any other number, so `heart_rate = 0` with
the default ranges (min 60, critical_min 40) should yield a below-normal and
a critically-low finding.  The source's truthiness gate (`if heart_rate:`)
treats `0` as absent: at the failing input `{heart_rate: 0}` the code
produces zero findings.  This theorem records the code's behaviour at that
input; the spec's §9 flags the conflation as a latent bug, so the claim is
right and the code is wrong. -/
theorem C1_zero_heart_rate_yields_no_findings :
    check_vital_thresholds { heart_rate := some 0 } = .ok [] := by decide

/-- C2 counterexample: the claim says an `oxygen_saturation` value strictly
above the configured max (100) yields an above-normal finding, as for the
other scalar vitals.  The source's oxygen block has no above-band checks at
all: at `oxygen_saturation = 150` the detector returns zero findings. -/
theorem C2_counterexample_oxygen_above_max :
    check_vital_thresholds { oxygen_saturation := some 150 } = .ok [] := by
  decide

/-- C2 (amended): a value strictly above the configured max yields an
above-normal (medium, threshold = max) finding, plus a critically-high
(high) finding when it also exceeds critical_max — for heart rate,
temperature and respiratory rate.  Oxygen saturation is the exception: its
block checks only the low side, so a value above its max yields no finding. -/
theorem C2_above_band_checks (v : ℚ) :
    (v > heart_rate_range.max →
      checkScalarVital "heart_rate" heart_rate_range (some v) =
        ⟨"heart_rate", v, "above normal", heart_rate_range.max, "medium"⟩ ::
          (if v > heart_rate_range.critical_max then
            [⟨"heart_rate", v, "critically high",
              heart_rate_range.critical_max, "high"⟩]
           else [])) ∧
    (v > temperature_range.max →
      checkScalarVital "temperature" temperature_range (some v) =
        ⟨"temperature", v, "above normal", temperature_range.max, "medium"⟩ ::
          (if v > temperature_range.critical_max then
            [⟨"temperature", v, "critically high",
              temperature_range.critical_max, "high"⟩]
           else [])) ∧
    (v > respiratory_rate_range.max →
      checkScalarVital "respiratory_rate" respiratory_rate_range (some v) =
        ⟨"respiratory_rate", v, "above normal",
          respiratory_rate_range.max, "medium"⟩ ::
          (if v > respiratory_rate_range.critical_max then
            [⟨"respiratory_rate", v, "critically high",
              respiratory_rate_range.critical_max, "high"⟩]
           else [])) ∧
    (v > oxygen_saturation_range.max → checkOxygenVital (some v) = []) := by
  refine ⟨fun hv => ?_, fun hv => ?_, fun hv => ?_, fun hv => ?_⟩
  · exact checkScalarVital_above _ _ _ (by decide) (by decide) (by decide) hv
  · exact checkScalarVital_above _ _ _ (by decide) (by decide) (by decide) hv
  · exact checkScalarVital_above _ _ _ (by decide) (by decide) (by decide) hv
  · have hmax : oxygen_saturation_range.max = 100 := rfl
    rw [hmax] at hv
    show (if v ≠ 0 then checkOxygen v else []) = []
    rw [if_pos (by intro he; rw [he] at hv; linarith : v ≠ 0)]
    unfold checkOxygen
    have hmin : oxygen_saturation_range.min = 95 := rfl
    have hcmin : oxygen_saturation_range.critical_min = 90 := rfl
    rw [hmin, hcmin, if_neg (by linarith : ¬ v < 95),
      if_neg (by linarith : ¬ v < 90)]
    rfl

/-- C2 witness: the amended claim at `v = 150` — heart rate 150 crosses both
bands; oxygen saturation 150 yields nothing. -/
theorem C2_above_band_checks_witness :
    checkScalarVital "heart_rate" heart_rate_range (some 150) =
      [⟨"heart_rate", 150, "above normal", 100, "medium"⟩,
       ⟨"heart_rate", 150, "critically high", 130, "high"⟩] ∧
    checkOxygenVital (some 150) = [] := by
  have h := C2_above_band_checks 150
  exact ⟨(h.1 (by decide)).trans (by decide), h.2.2.2 (by decide)⟩

/-- C3 counterexample: the claim says `check_vital_thresholds` never raises
for any input reading, including a present non-string `blood_pressure`
(`None`, a number, ...).  In the source,
`patient_data["blood_pressure"].split("/")` raises `AttributeError` on such a
value, and the `except (ValueError, IndexError)` clause does not catch it:
the call raises instead of returning a list. -/
theorem C3_counterexample_non_string_bp :
    check_vital_thresholds { blood_pressure := some .nonStr } =
      .error .attributeError := by
  decide

/-- C3 (amended): `check_vital_thresholds` returns an ordered findings list
and never raises for every reading whose `blood_pressure` field, when
present, is a string (well-formed or not); a present non-string value makes
it raise `AttributeError`. -/
theorem C3_total_on_string_or_absent_bp (pd : Reading)
    (hbp : ∀ r, pd.blood_pressure = some r → ∃ s, r = BPRaw.str s) :
    ∃ findings, check_vital_thresholds pd = .ok findings := by
  unfold check_vital_thresholds
  rcases hb : pd.blood_pressure with _ | r
  · exact ⟨_, rfl⟩
  · rcases r with s | _
    · simp only [checkBPBlock]
      rcases hp : parseBP s with _ | p
      · exact ⟨_, rfl⟩
      · rcases p with ⟨a, b⟩
        exact ⟨_, rfl⟩
    · obtain ⟨s, hs⟩ := hbp .nonStr hb
      exact (BPRaw.noConfusion hs)

/-- The reading used to witness C3 and C5: one out-of-band scalar plus an
unparsable blood-pressure string. -/
def c3_reading : Reading :=
  { heart_rate := some 39, blood_pressure := some (.str "not-a-number") }

/-- C3 witness: the amended claim at a concrete reading with a malformed
blood-pressure string, whose result is a plain findings list. -/
theorem C3_total_on_string_or_absent_bp_witness :
    (∃ findings, check_vital_thresholds c3_reading = .ok findings) ∧
    check_vital_thresholds c3_reading =
      .ok [⟨"heart_rate", 39, "below normal", 60, "medium"⟩,
           ⟨"heart_rate", 39, "critically low", 40, "high"⟩] := by
  refine ⟨C3_total_on_string_or_absent_bp c3_reading ?_, by decide⟩
  intro r hr
  rw [show c3_reading.blood_pressure = some (BPRaw.str "not-a-number") from rfl]
    at hr
  injection hr with h
  exact ⟨"not-a-number", h.symm⟩

/-- C4 counterexample: with the default heart-rate bands
(critical_min 40 < min 60 ≤ max 100 < critical_max 130) the claim says a
value equal to critical_min produces no finding, and a value strictly below
min produces a below-normal finding.  The code gives value 40 a below-normal
finding (40 < 60, only the critical comparison is strict against 40), and
gives value 0 no finding at all (the truthiness gate skips zero). -/
theorem C4_counterexample_boundary_and_zero :
    checkScalarVital "heart_rate" heart_rate_range (some 40) =
      [⟨"heart_rate", 40, "below normal", 60, "medium"⟩] ∧
    checkScalarVital "heart_rate" heart_rate_range (some 0) = [] := by
  exact ⟨by decide, by decide⟩

/-- C4 (amended): for bands with critical_min < min ≤ max < critical_max, a
value equal to min or max produces no finding; a NONZERO value strictly
below min produces a below-normal (medium) finding and, if also strictly
below critical_min, a critically-low (high) finding appended after it (so a
value equal to critical_min still gets the below-normal finding, and value 0
is skipped by the truthiness gate). -/
theorem C4_strict_banding (vital : String) (r : VitalRange) (v : ℚ)
    (h1 : r.critical_min < r.min) (h2 : r.min ≤ r.max) (h3 : r.max < r.critical_max) :
    ((v = r.min ∨ v = r.max) → checkScalarVital vital r (some v) = []) ∧
    (v ≠ 0 → v < r.min →
      checkScalarVital vital r (some v) =
        ⟨vital, v, "below normal", r.min, "medium"⟩ ::
          (if v < r.critical_min then
            [⟨vital, v, "critically low", r.critical_min, "high"⟩]
           else [])) := by
  constructor
  · intro hv
    show (if v ≠ 0 then checkScalar vital r v else []) = []
    by_cases h0 : v = 0
    · rw [if_neg (not_not.mpr h0)]
    · rw [if_pos h0]
      exact checkScalar_boundary vital r v h1 h2 h3 hv
  · intro h0 hv
    show (if v ≠ 0 then checkScalar vital r v else []) = _
    rw [if_pos h0]
    exact checkScalar_below vital r v (by linarith) hv

/-- C4 witness: the amended claim at the default heart-rate bands — value 60
(= min) yields nothing; value 39 yields exactly the below-normal finding at
threshold 60 followed by the critically-low finding at threshold 40. -/
theorem C4_strict_banding_witness :
    checkScalarVital "heart_rate" heart_rate_range (some 60) = [] ∧
    checkScalarVital "heart_rate" heart_rate_range (some 39) =
      [⟨"heart_rate", 39, "below normal", 60, "medium"⟩,
       ⟨"heart_rate", 39, "critically low", 40, "high"⟩] := by
  have h39 := C4_strict_banding "heart_rate" heart_rate_range 39
    (by decide) (by decide) (by decide)
  have h60 := C4_strict_banding "heart_rate" heart_rate_range 60
    (by decide) (by decide) (by decide)
  exact ⟨h60.1 (Or.inl (by decide)),
    (h39.2 (by decide) (by decide)).trans (by decide)⟩

/-- C5: a present blood-pressure string that fails to parse as
`"systolic/diastolic"` (wrong format, non-numeric parts, missing separator)
produces zero blood-pressure-related findings and no error, and the reading
is evaluated exactly as if blood pressure were absent: all other vitals
still contribute their findings. -/
theorem C5_parse_failure_skips_bp (pd : Reading) (s : String)
    (hbp : pd.blood_pressure = some (.str s)) (hp : parseBP s = none) :
    check_vital_thresholds pd =
      check_vital_thresholds { pd with blood_pressure := none } ∧
    ∃ findings, check_vital_thresholds pd = .ok findings ∧
      ∀ f ∈ findings, f.vital ≠ "blood_pressure_systolic" ∧
        f.vital ≠ "blood_pressure_diastolic" ∧ f.vital ≠ "pulse_pressure" := by
  have hok : check_vital_thresholds pd =
      .ok (checkScalarVital "heart_rate" heart_rate_range pd.heart_rate ++
        checkScalarVital "temperature" temperature_range pd.temperature ++
        checkOxygenVital pd.oxygen_saturation ++
        checkScalarVital "respiratory_rate" respiratory_rate_range
          pd.respiratory_rate) := by
    unfold check_vital_thresholds
    rw [hbp]
    simp only [checkBPBlock]
    rw [hp]
  constructor
  · rw [hok]
    unfold check_vital_thresholds
    rfl
  · refine ⟨_, hok, ?_⟩
    intro f hf
    have hv : f.vital = "heart_rate" ∨ f.vital = "temperature" ∨
        f.vital = "oxygen_saturation" ∨ f.vital = "respiratory_rate" := by
      simp only [List.mem_append] at hf
      rcases hf with ((hf | hf) | hf) | hf
      · exact Or.inl (checkScalarVital_vital_name _ _ _ f hf)
      · exact Or.inr (Or.inl (checkScalarVital_vital_name _ _ _ f hf))
      · exact Or.inr (Or.inr (Or.inl (checkOxygenVital_vital_name _ f hf)))
      · exact Or.inr (Or.inr (Or.inr (checkScalarVital_vital_name _ _ _ f hf)))
    rcases hv with h | h | h | h <;> (rw [h]; exact ⟨by decide, by decide, by decide⟩)

/-- C5 witness: the reading with heart rate 39 and blood pressure
`"not-a-number"` — the unparsable string changes nothing and the result has
no blood-pressure-related finding. -/
theorem C5_parse_failure_skips_bp_witness :
    check_vital_thresholds c3_reading =
      check_vital_thresholds { c3_reading with blood_pressure := none } ∧
    ∃ findings, check_vital_thresholds c3_reading = .ok findings ∧
      ∀ f ∈ findings, f.vital ≠ "blood_pressure_systolic" ∧
        f.vital ≠ "blood_pressure_diastolic" ∧ f.vital ≠ "pulse_pressure" :=
  C5_parse_failure_skips_bp c3_reading "not-a-number" rfl (by decide)

/-- C9: on a reading whose only vital field is `blood_pressure = "200/130"`,
the detector returns exactly five findings in the fixed order: systolic
above-normal (medium, threshold 120), systolic critically-high (high, 180),
diastolic above-normal (medium, 80), diastolic critically-high (high, 110),
then the derived pulse-pressure finding (value 70 > 50, threshold 50,
medium). -/
theorem C9_bp_200_130_five_findings :
    check_vital_thresholds { blood_pressure := some (.str "200/130") } =
      .ok [⟨"blood_pressure_systolic", 200, "above normal", 120, "medium"⟩,
           ⟨"blood_pressure_systolic", 200, "critically high", 180, "high"⟩,
           ⟨"blood_pressure_diastolic", 130, "above normal", 80, "medium"⟩,
           ⟨"blood_pressure_diastolic", 130, "critically high", 110, "high"⟩,
           ⟨"pulse_pressure", 70, "abnormal systolic-diastolic difference",
             50, "medium"⟩] := by
  decide

/-- C6: for a non-empty findings list whose severities are `"medium"` or
`"high"` (the only severities the detector emits), the alert level computed
and recorded by `process_anomalies` is the maximum of the findings'
severities mapped onto alert levels (medium → MEDIUM, high → HIGH) under the
order LOW < MEDIUM < HIGH < CRITICAL, and it is independent of the order of
the findings. -/
theorem C6_alert_level_is_max (an : List Finding) (hne : an ≠ [])
    (hs : ∀ f ∈ an, f.severity = "medium" ∨ f.severity = "high") :
    computeAlertLevel an =
      (if ∃ f ∈ an, f.severity = "high" then "HIGH" else "MEDIUM") ∧
    (∀ h pid ts v, process_anomalies h pid ts v an =
      historyAppend h pid ⟨ts, computeAlertLevel an, an, v⟩) ∧
    (∀ an2, an.Perm an2 → computeAlertLevel an = computeAlertLevel an2) := by
  refine ⟨computeAlertLevel_eq_max an hne hs, ?_, ?_⟩
  · intro h pid ts v
    unfold process_anomalies
    rw [if_neg hne]
  · intro an2 hperm
    have hne2 : an2 ≠ [] := by
      intro h2
      exact hne (List.Perm.eq_nil (h2 ▸ hperm))
    have hs2 : ∀ f ∈ an2, f.severity = "medium" ∨ f.severity = "high" :=
      fun f hf => hs f (hperm.mem_iff.mpr hf)
    rw [computeAlertLevel_eq_max an hne hs, computeAlertLevel_eq_max an2 hne2 hs2]
    have hiff : (∃ f ∈ an, f.severity = "high") ↔
        ∃ f ∈ an2, f.severity = "high" := by
      constructor <;> rintro ⟨f, hf, hfs⟩
      · exact ⟨f, hperm.mem_iff.mp hf, hfs⟩
      · exact ⟨f, hperm.mem_iff.mpr hf, hfs⟩
    by_cases hex : ∃ f ∈ an, f.severity = "high"
    · rw [if_pos hex, if_pos (hiff.mp hex)]
    · rw [if_neg hex, if_neg (fun hc => hex (hiff.mpr hc))]

/-- A medium-severity finding used in concrete alert-manager witnesses. -/
def wFinding : Finding := ⟨"heart_rate", 39, "below normal", 60, "medium"⟩

/-- A high-severity finding used in concrete alert-manager witnesses. -/
def wFindingHigh : Finding := ⟨"heart_rate", 39, "critically low", 40, "high"⟩

/-- C6 witness: severities [medium, high, medium] aggregate to HIGH, and a
reordering of the list yields the same level. -/
theorem C6_alert_level_is_max_witness :
    computeAlertLevel [wFinding, wFindingHigh, wFinding] = "HIGH" ∧
    computeAlertLevel [wFindingHigh, wFinding, wFinding] =
      computeAlertLevel [wFinding, wFindingHigh, wFinding] := by
  have h := C6_alert_level_is_max [wFinding, wFindingHigh, wFinding]
    (by decide) (by decide)
  refine ⟨h.1.trans (by decide), (h.2.2 [wFindingHigh, wFinding, wFinding] ?_).symm⟩
  exact List.Perm.swap wFindingHigh wFinding [wFinding]

/-- The alert recorded for `wFinding` at a given timestamp. -/
def wAlert (ts : String) : Alert := ⟨ts, "MEDIUM", [wFinding], {}⟩

/-- C7: `process_anomalies` with an empty anomalies list leaves the history
unchanged; with a non-empty list it appends exactly one alert at the end of
that subject's sequence and leaves every other subject's entry untouched;
consequently, replaying any sequence of calls from an empty history leaves
each subject with exactly the alerts of its non-empty-anomaly calls, in
arrival order. -/
theorem C7_history_append_only (h : AlertHistory) (pid ts : String) (v : Reading)
    (an : List Finding) :
    (an = [] → process_anomalies h pid ts v an = h) ∧
    (an ≠ [] →
      lookupAlerts (process_anomalies h pid ts v an) pid =
        lookupAlerts h pid ++ [⟨ts, computeAlertLevel an, an, v⟩] ∧
      ∀ q, q ≠ pid →
        lookupHistory (process_anomalies h pid ts v an) q = lookupHistory h q) ∧
    (∀ calls : List RecordCall,
      lookupAlerts (runCalls calls) pid =
        (calls.filter
          (fun c => c.patient_id == pid && !c.anomalies.isEmpty)).map alertOf) := by
  refine ⟨?_, ?_, ?_⟩
  · intro he
    unfold process_anomalies
    rw [if_pos he]
  · intro hne
    have hproc : process_anomalies h pid ts v an =
        historyAppend h pid ⟨ts, computeAlertLevel an, an, v⟩ := by
      unfold process_anomalies
      rw [if_neg hne]
    rw [hproc]
    exact ⟨lookupAlerts_historyAppend_same h pid _,
      fun q hq => lookupHistory_historyAppend_ne h pid q _ hq⟩
  · intro calls
    have haux := runCalls_lookup_aux calls [] pid
    unfold runCalls
    simpa [lookupAlerts, lookupHistory] using haux

/-- C7 witness: recording one non-empty findings list appends exactly that
alert for the subject, and a later call with an empty findings list is a
no-op on the history. -/
theorem C7_history_append_only_witness :
    lookupAlerts (process_anomalies [] "p" "t1" {} [wFinding]) "p" =
      [wAlert "t1"] ∧
    process_anomalies [("p", [wAlert "t1"])] "p" "t2" {} [] =
      [("p", [wAlert "t1"])] := by
  have h1 := (C7_history_append_only [] "p" "t1" {} [wFinding]).2.1 (by decide)
  have h2 := (C7_history_append_only [("p", [wAlert "t1"])] "p" "t2" {} []).1 rfl
  exact ⟨h1.1.trans (by decide), h2⟩

/-- A one-alert history: one record for subject `"p"`. -/
def wHistory1 : AlertHistory := process_anomalies [] "p" "t1" {} [wFinding]

/-- C8 counterexample: the claim quantifies over every limit; at limit 0 it
demands the last zero alerts, i.e. the empty sequence, but the source slices
with `alert_history[patient_id][-limit:]` and `-0 == 0`, so the whole
history comes back. -/
theorem C8_counterexample_limit_zero :
    get_patient_alerts wHistory1 "p" 0 = [wAlert "t1"] ∧
    get_patient_alerts wHistory1 "p" 0 ≠ [] := ⟨by decide, by decide⟩

/-- C8 (amended): for every limit ≥ 1, `get_patient_alerts` returns the last
`limit` alerts of the subject's history in arrival order — a suffix of the
stored sequence of length `min limit length`; all of them when fewer than
`limit` exist; and the empty sequence (not an error) for a subject never
recorded.  (Limit 0 instead returns the whole history, see C10.) -/
theorem C8_recent_returns_last_limit (h : AlertHistory) (pid : String)
    (limit : Int) (hl : 1 ≤ limit) :
    (∃ older, lookupAlerts h pid = older ++ get_patient_alerts h pid limit) ∧
    (get_patient_alerts h pid limit).length =
      min limit.toNat (lookupAlerts h pid).length ∧
    ((lookupAlerts h pid).length ≤ limit.toNat →
      get_patient_alerts h pid limit = lookupAlerts h pid) ∧
    (lookupHistory h pid = none → get_patient_alerts h pid limit = []) := by
  rcases hL : lookupHistory h pid with _ | alerts
  · have hget : get_patient_alerts h pid limit = [] := by
      unfold get_patient_alerts
      rw [hL]
    have hlk : lookupAlerts h pid = [] := by
      unfold lookupAlerts
      rw [hL]
      rfl
    rw [hget, hlk]
    simp
  · have hget : get_patient_alerts h pid limit = pySliceLast alerts limit := by
      unfold get_patient_alerts
      rw [hL]
    have hlk : lookupAlerts h pid = alerts := by
      unfold lookupAlerts
      rw [hL]
      rfl
    have hslice : pySliceLast alerts limit =
        alerts.drop (alerts.length - limit.toNat) := by
      unfold pySliceLast
      rw [if_pos (by linarith : limit > 0)]
    rw [hget, hlk, hslice]
    refine ⟨⟨alerts.take (alerts.length - limit.toNat),
      (List.take_append_drop _ _).symm⟩, ?_, ?_, ?_⟩
    · rw [List.length_drop]
      omega
    · intro hle
      have hz : alerts.length - limit.toNat = 0 := by omega
      rw [hz, List.drop_zero]
    · intro hc
      exact Option.noConfusion hc

/-- A three-alert history: three records for subject `"p"` in order. -/
def wHistory3 : AlertHistory :=
  process_anomalies
    (process_anomalies (process_anomalies [] "p" "t1" {} [wFinding])
      "p" "t2" {} [wFinding])
    "p" "t3" {} [wFinding]

/-- C8 witness: after three sequential records for one subject, limit 2
returns the 2nd and 3rd alerts in arrival order, a suffix of the stored
sequence. -/
theorem C8_recent_returns_last_limit_witness :
    get_patient_alerts wHistory3 "p" 2 = [wAlert "t2", wAlert "t3"] ∧
    (∃ older, lookupAlerts wHistory3 "p" =
      older ++ get_patient_alerts wHistory3 "p" 2) :=
  ⟨by decide, (C8_recent_returns_last_limit wHistory3 "p" 2 (by decide)).1⟩

/-- C10: for a subject with a non-empty history, `get_patient_alerts` with
limit 0 returns the entire history, not the empty sequence: the source
slices with `alert_history[patient_id][-limit:]` and `[-0:]` is `[0:]`, the
whole list. -/
theorem C10_limit_zero_full_history (h : AlertHistory) (pid : String)
    (alerts : List Alert) (hL : lookupHistory h pid = some alerts)
    (hne : alerts ≠ []) :
    get_patient_alerts h pid 0 = alerts ∧ get_patient_alerts h pid 0 ≠ [] := by
  have hget : get_patient_alerts h pid 0 = pySliceLast alerts 0 := by
    unfold get_patient_alerts
    rw [hL]
  have hslice : pySliceLast alerts (0 : Int) = alerts := by
    unfold pySliceLast
    rw [if_neg (by norm_num)]
    norm_num
  rw [hget, hslice]
  exact ⟨rfl, hne⟩

/-- C10 witness: the one-alert history at limit 0 returns its single alert. -/
theorem C10_limit_zero_full_history_witness :
    get_patient_alerts wHistory1 "p" 0 = [wAlert "t1"] ∧
    get_patient_alerts wHistory1 "p" 0 ≠ [] :=
  C10_limit_zero_full_history wHistory1 "p" [wAlert "t1"] (by decide) (by decide)
